import Mathlib

/-!
Verification development for the vector core of a Rust GDAL binding
(`src/vector/geometry.rs`, `src/vector/layer.rs`).

The Rust wrapper types are shallowly embedded: native pointers are `Nat`
(`0` is the null pointer), the native OGR engine is an oracle whose return
values are explicit parameters, assertion failures / panics are `Option`
(`none` = process abort), and the sequence of native calls a wrapper
function performs is recorded as a `List NativeCall` trace.
-/

set_option autoImplicit false

namespace Gdal

/-- The OGR success status code (`ogr::OGRERR_NONE = 0`). -/
def OGRERR_NONE : Int := 0

/-- One invocation of a native OGR/VSI routine, as recorded in a trace. -/
inductive NativeCall where
  | createGeometry (wkbType : Int)
  | createFromWkt (wkt : String)
  | destroyGeometry (handle : Nat)
  | addGeometryDirectly (parent child : Nat)
  | exportToJson (handle : Nat)
  | exportToWkt (handle : Nat)
  | vsiFree (buf : Nat)
  | ogrFree (buf : Nat)
  | fCreate (defnHandle : Nat)
  | fSetGeometryDirectly (feature geom : Nat)
  | lCreateFeature (layer feature : Nat)
  | getNextFeature (layer : Nat)
  deriving DecidableEq, Repr

/-- Embedding of `struct Geometry { c_geometry_ref: RefCell<Option<*const c_void>>, owned: bool }`.
Pointers are `Nat`; the `RefCell` indirection is dropped (state is passed explicitly). -/
structure Geometry where
  c_geometry_ref : Option Nat
  owned : Bool
  deriving DecidableEq, Repr

namespace Geometry

/-- `Geometry::lazy_feature_geometry()`: starts with a null `c_geometry` and `owned: false`. -/
def lazy_feature_geometry : Geometry :=
  { c_geometry_ref := none, owned := false }

/-- `Geometry::has_gdal_ptr()`: whether the inner `Option` is `Some`. -/
def has_gdal_ptr (g : Geometry) : Bool :=
  g.c_geometry_ref.isSome

/-- `Geometry::set_c_geometry(c_geometry)`: asserts `!has_gdal_ptr()` and
`owned == false`, then stores the handle.  `none` models the assertion failure. -/
def set_c_geometry (g : Geometry) (c_geometry : Nat) : Option Geometry :=
  if g.has_gdal_ptr then none
  else if g.owned then none
  else some { g with c_geometry_ref := some c_geometry }

/-- `Geometry::with_c_geometry(c_geom, owned)`. -/
def with_c_geometry (c_geom : Nat) (owned : Bool) : Geometry :=
  { c_geometry_ref := some c_geom, owned := owned }

/-- `Geometry::c_geometry()`: `self.c_geometry_ref.borrow().unwrap()`;
`none` models the `unwrap` panic on an unbound handle. -/
def c_geometry (g : Geometry) : Option Nat :=
  g.c_geometry_ref

/-- `Geometry::empty(wkb_type)`: calls `OGR_G_CreateGeometry` (the oracle
`create` gives its return value), asserts the result is non-null, and wraps it
with `owned: true`. -/
def empty (create : Int → Nat) (wkb_type : Int) : Option Geometry :=
  let c_geom := create wkb_type
  if c_geom ≠ 0 then some (with_c_geometry c_geom true) else none

/-- Whether a Rust string has an interior NUL byte: `CString::new(...).unwrap()`
in `Geometry::from_wkt` panics on such input. -/
def hasNul (s : String) : Bool :=
  s.data.any (fun c => c = Char.ofNat 0)

/-- `Geometry::from_wkt(wkt)`: builds a `CString` (panicking on interior NUL),
calls `OGR_G_CreateFromWkt` (the oracle `engine` gives its status code and the
parsed handle), asserts the status is `OGRERR_NONE`, and wraps the handle with
`owned: true`. -/
def from_wkt (engine : String → Int × Nat) (wkt : String) : Option Geometry :=
  if hasNul wkt then none
  else
    let rv := (engine wkt).1
    let c_geom := (engine wkt).2
    if rv = OGRERR_NONE then some (with_c_geometry c_geom true) else none

/-- `Geometry::into_c_geometry()`: asserts `self.owned`, sets `owned = false`,
returns the unwrapped handle together with the consumed value's final state. -/
def into_c_geometry (g : Geometry) : Option (Nat × Geometry) :=
  if g.owned then
    match g.c_geometry_ref with
    | some h => some (h, { g with owned := false })
    | none => none
  else none

/-- `impl Drop for Geometry`: if `owned`, call `OGR_G_DestroyGeometry` on the
unwrapped handle; otherwise do nothing.  The result is the trace of native
calls (`none` models the `unwrap` panic on an owned-but-unbound value). -/
def drop (g : Geometry) : Option (List NativeCall) :=
  if g.owned then
    match g.c_geometry_ref with
    | some h => some [NativeCall.destroyGeometry h]
    | none => none
  else some []

end Geometry

/-- Recognizer for `OGR_G_DestroyGeometry` calls in a trace. -/
def isDestroyCall : NativeCall → Bool
  | NativeCall.destroyGeometry _ => true
  | _ => false

/-- Well-formedness of a `Geometry` wrapper: an owned geometry always has a
bound handle.  Every constructor of the Rust API establishes this. -/
def Geometry.WF (g : Geometry) : Prop :=
  g.owned = true → g.c_geometry_ref.isSome = true

/-- The native-side state touched by `OGR_G_AddGeometryDirectly`: the ordered
list of `(parent, child)` attachments performed so far. -/
structure NativeState where
  attached : List (Nat × Nat)
  deriving DecidableEq, Repr

/-- The child parts of a composite geometry handle, read off the native state. -/
def NativeState.children (st : NativeState) (parent : Nat) : List Nat :=
  (st.attached.filter (fun pc => pc.1 == parent)).map (fun pc => pc.2)

/-- Oracle model of `OGR_G_AddGeometryDirectly`: the status code `rv` it will
return is a parameter; when it returns `OGRERR_NONE` the child has been
attached to the parent. -/
def nativeAddGeometryDirectly (st : NativeState) (parent child : Nat) (rv : Int) : NativeState :=
  if rv = OGRERR_NONE then { attached := st.attached ++ [(parent, child)] } else st

/-- Result of `Geometry::add_geometry`: whether every assertion passed (`ok`),
the wrapper states of the parent and the donor at return (or at abort), the
native state, and the trace of native calls made. -/
structure AddGeometryResult where
  ok : Bool
  self : Geometry
  sub : Geometry
  st : NativeState
  calls : List NativeCall
  deriving DecidableEq, Repr

/-- `Geometry::add_geometry(&mut self, mut sub)`: asserts `sub.owned`, flips
`sub.owned` to `false`, then calls
`OGR_G_AddGeometryDirectly(self.c_geometry(), sub.c_geometry())` (`rv` is the
status code the oracle returns) and asserts `rv == OGRERR_NONE`.  The `unwrap`
inside `c_geometry()` aborts on an unbound handle before the native call.
The function never writes to `self`'s fields. -/
def Geometry.add_geometry (st : NativeState) (rv : Int) (self sub : Geometry) :
    AddGeometryResult :=
  if sub.owned then
    let sub' := { sub with owned := false }
    match self.c_geometry_ref, sub.c_geometry_ref with
    | some hs, some hc =>
        { ok := decide (rv = OGRERR_NONE), self := self, sub := sub',
          st := nativeAddGeometryDirectly st hs hc rv,
          calls := [NativeCall.addGeometryDirectly hs hc] }
    | _, _ =>
        { ok := false, self := self, sub := sub', st := st, calls := [] }
  else
    { ok := false, self := self, sub := sub, st := st, calls := [] }

/-- All owning operations are rejected on `g` and its destruction releases
nothing: `add_geometry` with `g` as donor fails its first assertion without a
native call, `into_c_geometry` fails its assertion, and `drop` is a no-op. -/
def Geometry.owningOpsRejected (g : Geometry) : Prop :=
  (∀ st2 rv2 self2, Geometry.add_geometry st2 rv2 self2 g =
      { ok := false, self := self2, sub := g, st := st2, calls := [] }) ∧
    g.into_c_geometry = none ∧ g.drop = some []

/-- Embedding of `Feature`: the native feature handle plus the borrowed
defn handle (`Feature::_with_c_feature(defn, c_feature)`). -/
structure Feature where
  defn : Nat
  c_feature : Nat
  deriving DecidableEq, Repr

/-- Oracle model of `OGR_L_GetNextFeature`: the layer's native cursor holds
the list of remaining feature handles; an exhausted cursor keeps returning
the null handle. -/
def OGR_L_GetNextFeature (pending : List Nat) : Nat × List Nat :=
  match pending with
  | [] => (0, [])
  | h :: t => (h, t)

/-- `impl Iterator for FeatureIterator { fn next }`: calls
`OGR_L_GetNextFeature(self.layer.c_layer)` and matches on `c_feature.is_null()`:
`true => None`, `false => Some(Feature::_with_c_feature(self.layer.defn(), c_feature))`. -/
def FeatureIterator.next (defn : Nat) (pending : List Nat) :
    Option Feature × List Nat :=
  let r := OGR_L_GetNextFeature pending
  if r.1 = 0 then (none, r.2) else (some ⟨defn, r.1⟩, r.2)

/-- `n` successive calls of `FeatureIterator::next`, collecting their outputs. -/
def FeatureIterator.run (defn : Nat) (pending : List Nat) : Nat → List (Option Feature)
  | 0 => []
  | n + 1 =>
    let r := FeatureIterator.next defn pending
    r.1 :: FeatureIterator.run defn r.2 n

/-- Embedding of `struct Layer { c_layer: *const c_void, defn: Defn }`; the
`Defn` is kept as its native handle. -/
structure Layer where
  c_layer : Nat
  defn : Nat
  deriving DecidableEq, Repr

/-- Result of `Layer::create_feature`: whether every assertion passed, the
consumed geometry's final wrapper state once the consuming step was reached,
and the trace of native calls made. -/
structure CreateFeatureResult where
  ok : Bool
  geometry : Option Geometry
  calls : List NativeCall
  deriving DecidableEq, Repr

/-- `Layer::create_feature(&mut self, geometry)`: calls
`OGR_F_Create(self.defn.c_defn())` (oracle handle `c_feature`), consumes the
geometry with `into_c_geometry()` (asserting it is owned and clearing its
flag), calls `OGR_F_SetGeometryDirectly` (oracle status `rv1`, asserted to be
`OGRERR_NONE`), then `OGR_L_CreateFeature` (oracle status `rv2`, asserted to
be `OGRERR_NONE`). -/
def Layer.create_feature (c_feature : Nat) (rv1 rv2 : Int) (layer : Layer)
    (geometry : Geometry) : CreateFeatureResult :=
  match geometry.into_c_geometry with
  | none => { ok := false, geometry := none, calls := [NativeCall.fCreate layer.defn] }
  | some (c_geometry, geometry') =>
    if rv1 = OGRERR_NONE then
      if rv2 = OGRERR_NONE then
        { ok := true, geometry := some geometry',
          calls := [NativeCall.fCreate layer.defn,
            NativeCall.fSetGeometryDirectly c_feature c_geometry,
            NativeCall.lCreateFeature layer.c_layer c_feature] }
      else
        { ok := false, geometry := some geometry',
          calls := [NativeCall.fCreate layer.defn,
            NativeCall.fSetGeometryDirectly c_feature c_geometry,
            NativeCall.lCreateFeature layer.c_layer c_feature] }
    else
      { ok := false, geometry := some geometry',
        calls := [NativeCall.fCreate layer.defn,
          NativeCall.fSetGeometryDirectly c_feature c_geometry] }

/-- `Geometry::json(&self)`: calls `OGR_G_ExportToJson(self.c_geometry())`
(the oracle gives the returned buffer pointer `c_json`), copies the buffer
into an owned string (`_string`, modelled by the oracle `toStr`), then frees
the buffer with `VSIFree`.  No status or null check is performed on the
exporter's result. -/
def Geometry.json (c_json : Nat) (toStr : Nat → String) (g : Geometry) :
    Option String × List NativeCall :=
  match g.c_geometry_ref with
  | none => (none, [])
  | some h =>
    (some (toStr c_json), [NativeCall.exportToJson h, NativeCall.vsiFree c_json])

/-- `Geometry::wkt(&self)`: calls `OGR_G_ExportToWkt(self.c_geometry(), &mut c_wkt)`
(the oracle gives the status `err` and the buffer pointer `c_wkt`), asserts
`_err == OGRERR_NONE`, copies the buffer into an owned string, then frees the
buffer with `OGRFree`. -/
def Geometry.wkt (err : Int) (c_wkt : Nat) (toStr : Nat → String) (g : Geometry) :
    Option String × List NativeCall :=
  match g.c_geometry_ref with
  | none => (none, [])
  | some h =>
    if err = OGRERR_NONE then
      (some (toStr c_wkt), [NativeCall.exportToWkt h, NativeCall.ogrFree c_wkt])
    else (none, [NativeCall.exportToWkt h])

/-- Recognizer for `VSIFree` calls in a trace. -/
def isVsiFreeCall : NativeCall → Bool
  | NativeCall.vsiFree _ => true
  | _ => false

/-- Recognizer for `OGRFree` calls in a trace. -/
def isOgrFreeCall : NativeCall → Bool
  | NativeCall.ogrFree _ => true
  | _ => false

/-- The WKT string built by `Geometry::bbox(w, s, e, n)` via `format!`:
`POLYGON ((w n, e n, e s, w s, w n))`.  The coordinate type is abstract and
`fmt` stands for Rust's `Display` rendering of `f64`. -/
def bboxWkt {α : Type} (fmt : α → String) (w s e n : α) : String :=
  "POLYGON ((" ++ fmt w ++ " " ++ fmt n ++ ", " ++ fmt e ++ " " ++ fmt n ++ ", " ++
    fmt e ++ " " ++ fmt s ++ ", " ++ fmt w ++ " " ++ fmt s ++ ", " ++
    fmt w ++ " " ++ fmt n ++ "))"

/-- `Geometry::bbox(w, s, e, n)`: formats the five corners into WKT and
delegates to `Geometry::from_wkt`. -/
def Geometry.bbox {α : Type} (engine : String → Int × Nat) (fmt : α → String)
    (w s e n : α) : Option Geometry :=
  Geometry.from_wkt engine (bboxWkt fmt w s e n)

/-- Split a character list at every occurrence of the separator `c`. -/
def splitOnChar (c : Char) : List Char → List (List Char)
  | [] => [[]]
  | x :: xs =>
    let r := splitOnChar c xs
    if x = c then [] :: r
    else
      match r with
      | [] => [[x]]
      | y :: ys => (x :: y) :: ys

/-- Parse one `x y` coordinate token (tolerating leading blanks) of a WKT
ring into a pair, reading the numerals with `readNum`. -/
def parsePoint {α : Type} (readNum : String → α) (piece : List Char) :
    Option (α × α) :=
  match splitOnChar ' ' (piece.dropWhile (fun ch => ch == ' ')) with
  | [xs, ys] => some (readNum (String.mk xs), readNum (String.mk ys))
  | _ => none

/-- Parse every comma-separated coordinate token of a WKT ring; fail if any
token is malformed. -/
def parsePoints {α : Type} (readNum : String → α) :
    List (List Char) → Option (List (α × α))
  | [] => some []
  | piece :: rest =>
    match parsePoint readNum piece, parsePoints readNum rest with
    | some p, some ps => some (p :: ps)
    | _, _ => none

/-- Modelled from the spec: the external native engine's WKT parser for the
`POLYGON ((x y, x y, ...))` syntax (spec section 6); `OGR_G_CreateFromWkt`'s
implementation is not part of this repository.  Yields the listed coordinate
pairs in order. -/
def parsePolygonWkt {α : Type} (readNum : String → α) (s : String) :
    Option (List (α × α)) :=
  if s.data.take 10 = "POLYGON ((".data ∧
      s.data.drop (s.data.length - 2) = "))".data ∧ 12 ≤ s.data.length then
    parsePoints readNum (splitOnChar ',' ((s.data.drop 10).take (s.data.length - 12)))
  else none

/-- Modelled from the spec: the engine side of `OGR_G_CreateFromWkt` — status
`OGRERR_NONE` with a fresh handle `hNew` when the WKT parses, a non-ok status
otherwise. -/
def wktEngine {α : Type} (readNum : String → α) (hNew : Nat) (s : String) :
    Int × Nat :=
  match parsePolygonWkt readNum s with
  | some _ => (OGRERR_NONE, hNew)
  | none => (1, 0)

/-- `Geometry::get_point(i)`: `OGR_G_GetPoint` fills `(x, y, z)` from the
handle's stored point data (modelled as the parsed coordinate list); for a 2D
geometry the `z` output keeps its initialization `0.`. -/
def Geometry.get_point {α : Type} [Zero α] (points : List (α × α)) (i : Nat) :
    α × α × α :=
  match points.get? i with
  | some p => (p.1, p.2, 0)
  | none => (0, 0, 0)

/-- `Geometry::get_point_vec()`: reads `OGR_G_GetPointCount` (the stored point
count) and maps `get_point` over `0..count`. -/
def Geometry.get_point_vec {α : Type} [Zero α] (points : List (α × α)) :
    List (α × α × α) :=
  (List.range points.length).map (fun i => Geometry.get_point points i)

/-- A rendered coordinate token is well-formed for the WKT grammar: nonempty
and free of the separator/delimiter characters and of NUL. -/
@[reducible] def goodToken (t : String) : Prop :=
  t.data ≠ [] ∧ ∀ ch ∈ t.data, ch ≠ ',' ∧ ch ≠ ' ' ∧ ch ≠ ')' ∧ ch ≠ Char.ofNat 0

/-- A character list free of NUL bytes. -/
def noNulChars (l : List Char) : Prop :=
  ∀ ch ∈ l, ch ≠ Char.ofNat 0

/-- A concrete injective coordinate formatter on `Fin 5`, standing in for the
`f64` rendering when a theorem is instantiated on explicit inputs. -/
def unaryFmt (i : Fin 5) : String :=
  String.mk (List.replicate (i.val + 1) 'x')

/-- The matching numeral reader, inverse to `unaryFmt`. -/
def unaryRead (t : String) : Fin 5 :=
  Fin.ofNat (t.length - 1)

end Gdal

namespace Gdal

/-- C1: destruction of a `Geometry` calls `OGR_G_DestroyGeometry` exactly once
iff the ownership flag is true; for a non-owned `Geometry` (aliasing references
and unbound lazy geometries) destruction performs no release call. -/
theorem drop_destroys_iff_owned (g : Geometry) (hwf : g.WF) :
    ∃ tr, g.drop = some tr ∧
      ((tr.countP isDestroyCall = 1) ↔ g.owned = true) ∧
      (g.owned = false → tr = []) := by
  unfold Geometry.drop
  cases howned : g.owned with
  | false =>
    exact ⟨[], by simp, by simp [howned], by simp⟩
  | true =>
    have hsome : g.c_geometry_ref.isSome = true := hwf howned
    cases href : g.c_geometry_ref with
    | none => rw [href] at hsome; simp at hsome
    | some h =>
      refine ⟨[NativeCall.destroyGeometry h], by simp, ?_, by simp⟩
      simp [List.countP, List.countP.go, isDestroyCall]

/-- Witness for C1 at a concrete owned geometry. -/
theorem drop_destroys_iff_owned_witness :
    ∃ tr, (Geometry.with_c_geometry 5 true).drop = some tr ∧
      ((tr.countP isDestroyCall = 1) ↔ (Geometry.with_c_geometry 5 true).owned = true) ∧
      ((Geometry.with_c_geometry 5 true).owned = false → tr = []) :=
  drop_destroys_iff_owned (Geometry.with_c_geometry 5 true) (fun _ => by decide)

/-- C2: binding the handle of a lazy feature-bound `Geometry` via
`set_c_geometry` succeeds exactly when no handle is bound and the ownership
flag is false, and a second bind on the result fails the assertion. -/
theorem set_c_geometry_bind_once (g : Geometry) (h : Nat) :
    ((g.set_c_geometry h).isSome ↔ (g.has_gdal_ptr = false ∧ g.owned = false)) ∧
      (∀ g' h', g.set_c_geometry h = some g' → g'.set_c_geometry h' = none) := by
  constructor
  · unfold Geometry.set_c_geometry
    cases hptr : g.has_gdal_ptr with
    | true => simp [hptr]
    | false =>
      cases howned : g.owned with
      | true => simp [howned]
      | false => simp [howned]
  · intro g' h' hset
    unfold Geometry.set_c_geometry at hset ⊢
    by_cases hptr : g.has_gdal_ptr = true
    · simp [hptr] at hset
    · simp only [Bool.not_eq_true] at hptr
      simp only [hptr, if_false] at hset
      by_cases howned : g.owned = true
      · simp [howned] at hset
      · simp only [Bool.not_eq_true] at howned
        simp only [howned, if_false, Option.some.injEq, Bool.false_eq_true] at hset
        subst hset
        simp [Geometry.has_gdal_ptr]

/-- Witness for C2 on the lazy feature geometry: the first bind succeeds, the
second fails. -/
theorem set_c_geometry_bind_once_witness :
    ((Geometry.lazy_feature_geometry.set_c_geometry 7).isSome ↔
      (Geometry.lazy_feature_geometry.has_gdal_ptr = false ∧
        Geometry.lazy_feature_geometry.owned = false)) ∧
      (∀ g' h', Geometry.lazy_feature_geometry.set_c_geometry 7 = some g' →
        g'.set_c_geometry h' = none) :=
  set_c_geometry_bind_once Geometry.lazy_feature_geometry 7

/-- Helper: a geometry whose ownership flag is false has every owning
operation rejected and its destruction is a no-op. -/
theorem owningOpsRejected_of_not_owned (g : Geometry) (hg : g.owned = false) :
    g.owningOpsRejected := by
  refine ⟨?_, ?_, ?_⟩
  · intro st2 rv2 self2
    unfold Geometry.add_geometry
    simp [hg]
  · unfold Geometry.into_c_geometry
    simp [hg]
  · unfold Geometry.drop
    simp [hg]

/-- C3: when an owned geometry `sub` is transferred into a parent via
`add_geometry`, or consumed via `into_c_geometry`, the donor's ownership flag
flips to false while its handle binding is kept, so every later owning
operation on the donor is rejected by the owned-precondition assertion and the
donor's destruction frees nothing. -/
theorem transfer_flips_owned_and_rejects (st : NativeState) (rv : Int)
    (self sub : Geometry) (h : Nat) (subI : Geometry)
    (hok : (Geometry.add_geometry st rv self sub).ok = true)
    (hinto : sub.into_c_geometry = some (h, subI)) :
    ((Geometry.add_geometry st rv self sub).sub.owned = false ∧
      (Geometry.add_geometry st rv self sub).sub.c_geometry_ref = sub.c_geometry_ref ∧
      (Geometry.add_geometry st rv self sub).sub.owningOpsRejected) ∧
    (subI.owned = false ∧ subI.c_geometry_ref = sub.c_geometry_ref ∧
      subI.owningOpsRejected) := by
  have hsub : sub.owned = true := by
    cases hO : sub.owned
    · unfold Geometry.add_geometry at hok
      simp [hO] at hok
    · rfl
  obtain ⟨hc, hrefc⟩ : ∃ hc, sub.c_geometry_ref = some hc := by
    cases hR : sub.c_geometry_ref with
    | none =>
      unfold Geometry.into_c_geometry at hinto
      simp [hsub, hR] at hinto
    | some hc => exact ⟨hc, rfl⟩
  obtain ⟨hs, hrefs⟩ : ∃ hs, self.c_geometry_ref = some hs := by
    cases hR : self.c_geometry_ref with
    | none =>
      unfold Geometry.add_geometry at hok
      simp [hsub, hR, hrefc] at hok
    | some hs => exact ⟨hs, rfl⟩
  have hradd : (Geometry.add_geometry st rv self sub).sub = { sub with owned := false } := by
    unfold Geometry.add_geometry
    simp [hsub, hrefs, hrefc]
  have hsubI : subI = { sub with owned := false } := by
    unfold Geometry.into_c_geometry at hinto
    simp [hsub, hrefc] at hinto
    rw [hrefc]
    exact hinto.2.symm
  constructor
  · refine ⟨by rw [hradd], by rw [hradd], ?_⟩
    exact owningOpsRejected_of_not_owned _ (by rw [hradd])
  · refine ⟨by rw [hsubI], by rw [hsubI], ?_⟩
    exact owningOpsRejected_of_not_owned _ (by rw [hsubI])

/-- Witness for C3 with a concrete owned, bound donor and a successful add. -/
theorem transfer_flips_owned_and_rejects_witness :
    ((Geometry.add_geometry ⟨[]⟩ 0 (Geometry.with_c_geometry 1 true)
        (Geometry.with_c_geometry 2 true)).sub.owned = false ∧
      (Geometry.add_geometry ⟨[]⟩ 0 (Geometry.with_c_geometry 1 true)
        (Geometry.with_c_geometry 2 true)).sub.c_geometry_ref =
        (Geometry.with_c_geometry 2 true).c_geometry_ref ∧
      (Geometry.add_geometry ⟨[]⟩ 0 (Geometry.with_c_geometry 1 true)
        (Geometry.with_c_geometry 2 true)).sub.owningOpsRejected) ∧
    ((Geometry.mk (some 2) false).owned = false ∧
      (Geometry.mk (some 2) false).c_geometry_ref =
        (Geometry.with_c_geometry 2 true).c_geometry_ref ∧
      (Geometry.mk (some 2) false).owningOpsRejected) :=
  transfer_flips_owned_and_rejects ⟨[]⟩ 0 (Geometry.with_c_geometry 1 true)
    (Geometry.with_c_geometry 2 true) 2 (Geometry.mk (some 2) false)
    (by decide) (by rfl)

/-- C4: calling `add_geometry` with a non-owned donor fails the assertion
before any native call: the trace is empty, the parent's wrapper state is
untouched and the native state (hence every handle's child parts) is
unchanged. -/
theorem add_geometry_unowned_no_call (st : NativeState) (rv : Int)
    (self sub : Geometry) (hsub : sub.owned = false) :
    Geometry.add_geometry st rv self sub =
      { ok := false, self := self, sub := sub, st := st, calls := [] } := by
  unfold Geometry.add_geometry
  simp [hsub]

/-- Witness for C4 at a concrete non-owned donor. -/
theorem add_geometry_unowned_no_call_witness :
    Geometry.add_geometry ⟨[(9, 9)]⟩ 0 (Geometry.with_c_geometry 1 true)
        (Geometry.with_c_geometry 2 false) =
      { ok := false, self := Geometry.with_c_geometry 1 true,
        sub := Geometry.with_c_geometry 2 false, st := ⟨[(9, 9)]⟩, calls := [] } :=
  add_geometry_unowned_no_call ⟨[(9, 9)]⟩ 0 (Geometry.with_c_geometry 1 true)
    (Geometry.with_c_geometry 2 false) (by decide)

/-- Helper: an exhausted cursor makes every further `next` return `None`. -/
theorem run_exhausted (defn : Nat) (k : Nat) :
    FeatureIterator.run defn [] k = List.replicate k none := by
  induction k with
  | zero => rfl
  | succ k ih =>
    simp [FeatureIterator.run, FeatureIterator.next, OGR_L_GetNextFeature, ih,
      List.replicate_succ]

/-- Helper: advancing a cursor of non-null handles `fs` for `fs.length + 1 + k`
steps yields each feature once, in order, then only `None`. -/
theorem run_yields (defn : Nat) (k : Nat) (fs : List Nat) :
    (∀ x ∈ fs, x ≠ 0) →
      FeatureIterator.run defn fs (fs.length + 1 + k) =
        fs.map (fun h => some ⟨defn, h⟩) ++ List.replicate (k + 1) none := by
  induction fs with
  | nil =>
    intro _
    simpa [Nat.add_comm] using run_exhausted defn (1 + k)
  | cons h t ih =>
    intro hfs
    have harg : (h :: t).length + 1 + k = (t.length + 1 + k) + 1 := by
      simp [List.length_cons]
      omega
    rw [harg]
    have hh : h ≠ 0 := hfs h (List.mem_cons_self h t)
    simp [FeatureIterator.run, FeatureIterator.next, OGR_L_GetNextFeature, hh,
      ih (fun x hx => hfs x (List.mem_cons_of_mem h hx))]

/-- C5: over a native cursor holding `N` (non-null) feature handles, the
`FeatureIterator` yields `Some` exactly `N` times, then `None` on every later
call, and `next` returns `None` exactly when `OGR_L_GetNextFeature` yields the
null handle. -/
theorem featureIterator_yields_then_none (defn : Nat) (fs : List Nat) (k : Nat)
    (hfs : ∀ x ∈ fs, x ≠ 0) :
    (FeatureIterator.run defn fs (fs.length + 1 + k) =
        fs.map (fun h => some ⟨defn, h⟩) ++ List.replicate (k + 1) none) ∧
      ∀ pending, ((FeatureIterator.next defn pending).1 = none ↔
        (OGR_L_GetNextFeature pending).1 = 0) := by
  refine ⟨run_yields defn k fs hfs, ?_⟩
  intro pending
  unfold FeatureIterator.next
  by_cases hp : (OGR_L_GetNextFeature pending).1 = 0
  · simp [hp]
  · simp [hp]

/-- Witness for C5 with a two-feature cursor, run for four steps. -/
theorem featureIterator_yields_then_none_witness :
    (FeatureIterator.run 3 [1, 2] ([1, 2].length + 1 + 1) =
        [1, 2].map (fun h => some ⟨3, h⟩) ++ List.replicate (1 + 1) none) ∧
      ∀ pending, ((FeatureIterator.next 3 pending).1 = none ↔
        (OGR_L_GetNextFeature pending).1 = 0) :=
  featureIterator_yields_then_none 3 [1, 2] 1 (by decide)

/-- C7: `Geometry::empty` succeeds exactly when the native creation returns a
non-null handle, `Geometry::from_wkt` succeeds exactly when the `CString`
conversion does not panic and the native parse returns `OGRERR_NONE`, and on
success each returns an owned geometry bound to the returned handle. -/
theorem creation_asserts_nonnull_and_ok (create : Int → Nat)
    (engine : String → Int × Nat) (wkb_type : Int) (wkt : String) :
    ((Geometry.empty create wkb_type).isSome = true ↔ create wkb_type ≠ 0) ∧
      (∀ g, Geometry.empty create wkb_type = some g →
        g.owned = true ∧ g.c_geometry_ref = some (create wkb_type)) ∧
      ((Geometry.from_wkt engine wkt).isSome = true ↔
        (Geometry.hasNul wkt = false ∧ (engine wkt).1 = OGRERR_NONE)) ∧
      (∀ g, Geometry.from_wkt engine wkt = some g →
        g.owned = true ∧ g.c_geometry_ref = some (engine wkt).2) := by
  refine ⟨?_, ?_, ?_, ?_⟩
  · unfold Geometry.empty
    by_cases hc : create wkb_type ≠ 0
    · simp [hc]
    · simp [hc]
  · intro g hg
    unfold Geometry.empty at hg
    by_cases hc : create wkb_type ≠ 0
    · simp [hc] at hg
      subst hg
      exact ⟨rfl, rfl⟩
    · simp [hc] at hg
  · unfold Geometry.from_wkt
    by_cases hn : Geometry.hasNul wkt
    · simp [hn]
    · by_cases hrv : (engine wkt).1 = OGRERR_NONE
      · simp [hn, hrv]
      · simp [hn, hrv]
  · intro g hg
    unfold Geometry.from_wkt at hg
    by_cases hn : Geometry.hasNul wkt
    · simp [hn] at hg
    · by_cases hrv : (engine wkt).1 = OGRERR_NONE
      · simp [hn, hrv] at hg
        subst hg
        exact ⟨rfl, rfl⟩
      · simp [hn, hrv] at hg

/-- Witness for C7 with a creation oracle returning handle 4 and a parse
oracle returning status 0 with handle 6. -/
theorem creation_asserts_nonnull_and_ok_witness :
    ((Geometry.empty (fun _ => 4) 1).isSome = true ↔ (fun (_ : Int) => 4) 1 ≠ 0) ∧
      (∀ g, Geometry.empty (fun _ => 4) 1 = some g →
        g.owned = true ∧ g.c_geometry_ref = some ((fun (_ : Int) => 4) 1)) ∧
      ((Geometry.from_wkt (fun _ => (0, 6)) "POINT (1 2)").isSome = true ↔
        (Geometry.hasNul "POINT (1 2)" = false ∧
          ((fun (_ : String) => ((0 : Int), 6)) "POINT (1 2)").1 = OGRERR_NONE)) ∧
      (∀ g, Geometry.from_wkt (fun _ => (0, 6)) "POINT (1 2)" = some g →
        g.owned = true ∧
          g.c_geometry_ref = some ((fun (_ : String) => ((0 : Int), 6)) "POINT (1 2)").2) :=
  creation_asserts_nonnull_and_ok (fun _ => 4) (fun _ => (0, 6)) 1 "POINT (1 2)"

/-- C8: `Layer::create_feature` succeeds exactly when the geometry can be
consumed by `into_c_geometry` (which requires it to be owned and bound) and
both native status codes are `OGRERR_NONE`; whenever the consuming step is
reached the donor's flag is cleared while its handle binding is kept. -/
theorem create_feature_transfers_and_asserts (c_feature : Nat) (rv1 rv2 : Int)
    (layer : Layer) (geometry : Geometry) :
    ((Layer.create_feature c_feature rv1 rv2 layer geometry).ok = true ↔
      (geometry.into_c_geometry.isSome = true ∧
        rv1 = OGRERR_NONE ∧ rv2 = OGRERR_NONE)) ∧
      (geometry.into_c_geometry.isSome = true ↔
        (geometry.owned = true ∧ geometry.c_geometry_ref.isSome = true)) ∧
      (∀ g', (Layer.create_feature c_feature rv1 rv2 layer geometry).geometry = some g' →
        g'.owned = false ∧ g'.c_geometry_ref = geometry.c_geometry_ref) := by
  refine ⟨?_, ?_, ?_⟩
  · unfold Layer.create_feature
    cases hI : geometry.into_c_geometry with
    | none => simp
    | some p =>
      by_cases h1 : rv1 = OGRERR_NONE
      · by_cases h2 : rv2 = OGRERR_NONE
        · simp [h1, h2]
        · simp [h1, h2]
      · simp [h1]
  · unfold Geometry.into_c_geometry
    cases howned : geometry.owned with
    | false => simp
    | true =>
      cases href : geometry.c_geometry_ref with
      | none => simp
      | some h => simp
  · intro g' hg'
    have hIg : ∀ hdl gI, geometry.into_c_geometry = some (hdl, gI) →
        gI.owned = false ∧ gI.c_geometry_ref = geometry.c_geometry_ref := by
      intro hdl gI hI
      unfold Geometry.into_c_geometry at hI
      cases howned : geometry.owned with
      | false => simp [howned] at hI
      | true =>
        cases href : geometry.c_geometry_ref with
        | none => simp [howned, href] at hI
        | some h =>
          simp [howned, href] at hI
          refine ⟨?_, ?_⟩ <;> rw [← hI.2]
    unfold Layer.create_feature at hg'
    cases hI : geometry.into_c_geometry with
    | none => simp [hI] at hg'
    | some p =>
      have hbase := hIg p.1 p.2 (by rw [hI])
      by_cases h1 : rv1 = OGRERR_NONE
      · by_cases h2 : rv2 = OGRERR_NONE
        · simp [hI, h1, h2] at hg'
          exact hg' ▸ hbase
        · simp [hI, h1, h2] at hg'
          exact hg' ▸ hbase
      · simp [hI, h1] at hg'
        exact hg' ▸ hbase

/-- Witness for C8 on an owned bound geometry with both statuses ok. -/
theorem create_feature_transfers_and_asserts_witness :
    ((Layer.create_feature 10 0 0 ⟨20, 21⟩ (Geometry.with_c_geometry 2 true)).ok = true ↔
      ((Geometry.with_c_geometry 2 true).into_c_geometry.isSome = true ∧
        (0 : Int) = OGRERR_NONE ∧ (0 : Int) = OGRERR_NONE)) ∧
      ((Geometry.with_c_geometry 2 true).into_c_geometry.isSome = true ↔
        ((Geometry.with_c_geometry 2 true).owned = true ∧
          (Geometry.with_c_geometry 2 true).c_geometry_ref.isSome = true)) ∧
      (∀ g', (Layer.create_feature 10 0 0 ⟨20, 21⟩
          (Geometry.with_c_geometry 2 true)).geometry = some g' →
        g'.owned = false ∧
          g'.c_geometry_ref = (Geometry.with_c_geometry 2 true).c_geometry_ref) :=
  create_feature_transfers_and_asserts 10 0 0 ⟨20, 21⟩ (Geometry.with_c_geometry 2 true)

/-- C9: `json` frees its exported buffer with `VSIFree` and `wkt` frees its
exported buffer with `OGRFree`; on each path the matching free is called
exactly once, right after the export, and the other free routine is never
called. -/
theorem export_buffer_free_pairing (c_json : Nat) (c_wkt : Nat)
    (toStr : Nat → String) (g : Geometry) (h : Nat)
    (href : g.c_geometry_ref = some h) :
    ((Geometry.json c_json toStr g).2 =
        [NativeCall.exportToJson h, NativeCall.vsiFree c_json] ∧
      (Geometry.json c_json toStr g).2.countP isVsiFreeCall = 1 ∧
      (Geometry.json c_json toStr g).2.countP isOgrFreeCall = 0) ∧
    ((Geometry.wkt OGRERR_NONE c_wkt toStr g).2 =
        [NativeCall.exportToWkt h, NativeCall.ogrFree c_wkt] ∧
      (Geometry.wkt OGRERR_NONE c_wkt toStr g).2.countP isOgrFreeCall = 1 ∧
      (Geometry.wkt OGRERR_NONE c_wkt toStr g).2.countP isVsiFreeCall = 0) := by
  unfold Geometry.json Geometry.wkt
  rw [href]
  refine ⟨⟨rfl, ?_, ?_⟩, ⟨by simp, ?_, ?_⟩⟩ <;>
    simp [List.countP, List.countP.go, isVsiFreeCall, isOgrFreeCall]

/-- Witness for C9 at a concrete bound geometry and buffers. -/
theorem export_buffer_free_pairing_witness :
    ((Geometry.json 30 (fun _ => "j") (Geometry.with_c_geometry 5 true)).2 =
        [NativeCall.exportToJson 5, NativeCall.vsiFree 30] ∧
      (Geometry.json 30 (fun _ => "j")
        (Geometry.with_c_geometry 5 true)).2.countP isVsiFreeCall = 1 ∧
      (Geometry.json 30 (fun _ => "j")
        (Geometry.with_c_geometry 5 true)).2.countP isOgrFreeCall = 0) ∧
    ((Geometry.wkt OGRERR_NONE 31 (fun _ => "j") (Geometry.with_c_geometry 5 true)).2 =
        [NativeCall.exportToWkt 5, NativeCall.ogrFree 31] ∧
      (Geometry.wkt OGRERR_NONE 31 (fun _ => "j")
        (Geometry.with_c_geometry 5 true)).2.countP isOgrFreeCall = 1 ∧
      (Geometry.wkt OGRERR_NONE 31 (fun _ => "j")
        (Geometry.with_c_geometry 5 true)).2.countP isVsiFreeCall = 0) :=
  export_buffer_free_pairing 30 31 (fun _ => "j") (Geometry.with_c_geometry 5 true) 5 rfl

/-- C10: `json` performs no status or null check on the exporter's result and
always yields a string on a bound geometry, for every buffer the exporter
returns (the null buffer included), while `wkt` succeeds exactly when the
exporter's status is `OGRERR_NONE`. -/
theorem json_unchecked_wkt_checked (toStr : Nat → String) (g : Geometry) (h : Nat)
    (href : g.c_geometry_ref = some h) :
    (∀ c_json, (Geometry.json c_json toStr g).1 = some (toStr c_json)) ∧
      (∀ err c_wkt, ((Geometry.wkt err c_wkt toStr g).1.isSome = true ↔
        err = OGRERR_NONE)) := by
  constructor
  · intro c_json
    unfold Geometry.json
    rw [href]
  · intro err c_wkt
    unfold Geometry.wkt
    rw [href]
    by_cases herr : err = OGRERR_NONE
    · simp [herr]
    · simp [herr]

/-- Witness for C10 at a concrete bound geometry. -/
theorem json_unchecked_wkt_checked_witness :
    (∀ c_json, (Geometry.json c_json (fun _ => "s")
        (Geometry.with_c_geometry 8 true)).1 = some ((fun (_ : Nat) => "s") c_json)) ∧
      (∀ err c_wkt, ((Geometry.wkt err c_wkt (fun _ => "s")
        (Geometry.with_c_geometry 8 true)).1.isSome = true ↔ err = OGRERR_NONE)) :=
  json_unchecked_wkt_checked (fun _ => "s") (Geometry.with_c_geometry 8 true) 8 rfl

/-- Helper: a separator-free list is not split. -/
theorem splitOnChar_single (c : Char) (l : List Char) (h : ∀ x ∈ l, x ≠ c) :
    splitOnChar c l = [l] := by
  induction l with
  | nil => rfl
  | cons x xs ih =>
    have hx : x ≠ c := h x (List.mem_cons_self x xs)
    have hxs := ih (fun z hz => h z (List.mem_cons_of_mem x hz))
    simp [splitOnChar, hx, hxs]

/-- Helper: splitting at the first separator occurrence. -/
theorem splitOnChar_append (c : Char) (a rest : List Char) (h : ∀ x ∈ a, x ≠ c) :
    splitOnChar c (a ++ c :: rest) = a :: splitOnChar c rest := by
  induction a with
  | nil => simp [splitOnChar]
  | cons x xs ih =>
    have hx : x ≠ c := h x (List.mem_cons_self x xs)
    have hxs := ih (fun z hz => h z (List.mem_cons_of_mem x hz))
    simp [splitOnChar, hx, hxs]

/-- Helper: a comma split starting at a blank that precedes a comma-free
token. -/
theorem splitOnChar_comma_blank (a rest : List Char) (h : ∀ x ∈ a, x ≠ ',') :
    splitOnChar ',' (' ' :: (a ++ ',' :: rest)) =
      (' ' :: a) :: splitOnChar ',' rest := by
  have hs := splitOnChar_append ',' a rest h
  simp [splitOnChar, hs]

/-- Helper: a comma split of a final blank-prefixed comma-free token. -/
theorem splitOnChar_comma_blank_last (a : List Char) (h : ∀ x ∈ a, x ≠ ',') :
    splitOnChar ',' (' ' :: a) = [' ' :: a] := by
  have hs := splitOnChar_single ',' a h
  simp [splitOnChar, hs]

/-- Helper: `parsePoint` ignores one leading blank. -/
theorem parsePoint_cons_blank {α : Type} (readNum : String → α) (l : List Char) :
    parsePoint readNum (' ' :: l) = parsePoint readNum l := by
  simp [parsePoint, List.dropWhile_cons]

/-- Helper: parsing a rendered `x y` token pair made of good tokens. -/
theorem parsePoint_token {α : Type} (readNum : String → α) (x y : String)
    (hx : goodToken x) (hy : goodToken y) :
    parsePoint readNum (x.data ++ ' ' :: y.data) = some (readNum x, readNum y) := by
  obtain ⟨hxne, hxch⟩ := hx
  obtain ⟨hyne, hych⟩ := hy
  have hdrop : (x.data ++ ' ' :: y.data).dropWhile (fun ch => ch == ' ') =
      x.data ++ ' ' :: y.data := by
    cases hxd : x.data with
    | nil => exact absurd hxd hxne
    | cons c0 cr =>
      have hc0 : ¬(c0 = ' ') := by
        have hm := hxch c0 (by rw [hxd]; exact List.mem_cons_self _ _)
        exact hm.2.1
      simp [List.dropWhile_cons, hc0]
  have hsplit : splitOnChar ' ' (x.data ++ ' ' :: y.data) =
      x.data :: splitOnChar ' ' y.data :=
    splitOnChar_append ' ' x.data y.data (fun z hz => (hxch z hz).2.1)
  have hysplit : splitOnChar ' ' y.data = [y.data] :=
    splitOnChar_single ' ' y.data (fun z hz => (hych z hz).2.1)
  unfold parsePoint
  rw [hdrop, hsplit, hysplit]

/-- Helper: characters of a rendered `x y` token are never commas. -/
theorem tok_no_comma {α : Type} (fmt : α → String) (hgood : ∀ a, goodToken (fmt a))
    (a b : α) : ∀ x ∈ (fmt a).data ++ ' ' :: (fmt b).data, x ≠ ',' := by
  intro x hx
  rcases List.mem_append.mp hx with hxa | hxb
  · exact (((hgood a).2 x hxa)).1
  · rcases List.mem_cons.mp hxb with hsp | hxb2
    · subst hsp
      decide
    · exact (((hgood b).2 x hxb2)).1

/-- Helper: characters of a rendered `x y` token are never NUL. -/
theorem tok_noNul {α : Type} (fmt : α → String) (hgood : ∀ a, goodToken (fmt a))
    (a b : α) : ∀ x ∈ (fmt a).data ++ ' ' :: (fmt b).data, x ≠ Char.ofNat 0 := by
  intro x hx
  rcases List.mem_append.mp hx with hxa | hxb
  · exact (((hgood a).2 x hxa)).2.2.2
  · rcases List.mem_cons.mp hxb with hsp | hxb2
    · subst hsp
      decide
    · exact (((hgood b).2 x hxb2)).2.2.2

/-- Helper: the character data of the `bbox` WKT string, in parser-aligned
form: prefix, five `x y` tokens separated by `", "`, suffix. -/
theorem bboxWkt_data {α : Type} (fmt : α → String) (w s e n : α) :
    (bboxWkt fmt w s e n).data =
      "POLYGON ((".data ++
        ((((fmt w).data ++ ' ' :: (fmt n).data) ++ ',' :: ' ' ::
         (((fmt e).data ++ ' ' :: (fmt n).data) ++ ',' :: ' ' ::
          (((fmt e).data ++ ' ' :: (fmt s).data) ++ ',' :: ' ' ::
           (((fmt w).data ++ ' ' :: (fmt s).data) ++ ',' :: ' ' ::
            ((fmt w).data ++ ' ' :: (fmt n).data))))) ++ "))".data) := by
  have h1 : (" " : String).data = [' '] := rfl
  have h2 : (", " : String).data = [',', ' '] := rfl
  simp [bboxWkt, String.data_append, h1, h2]

/-- Helper: the `bbox` WKT string never contains an interior NUL, so the
`CString` conversion in `from_wkt` cannot panic on it. -/
theorem bboxWkt_noNul {α : Type} (fmt : α → String) (hgood : ∀ a, goodToken (fmt a))
    (w s e n : α) : Geometry.hasNul (bboxWkt fmt w s e n) = false := by
  have hP : ∀ c ∈ ("POLYGON ((" : String).data, c ≠ Char.ofNat 0 := by decide
  have hE : ∀ c ∈ ("))" : String).data, c ≠ Char.ofNat 0 := by decide
  have hmem : ∀ ch ∈ (bboxWkt fmt w s e n).data, ch ≠ Char.ofNat 0 := by
    rw [bboxWkt_data]
    intro ch hch
    rcases List.mem_append.mp hch with h | hrest
    · exact hP ch h
    rcases List.mem_append.mp hrest with hmid | hend
    · rcases List.mem_append.mp hmid with h | hmid
      · exact tok_noNul fmt hgood w n ch h
      rcases List.mem_cons.mp hmid with hc | hmid
      · subst hc
        decide
      rcases List.mem_cons.mp hmid with hc | hmid
      · subst hc
        decide
      rcases List.mem_append.mp hmid with h | hmid
      · exact tok_noNul fmt hgood e n ch h
      rcases List.mem_cons.mp hmid with hc | hmid
      · subst hc
        decide
      rcases List.mem_cons.mp hmid with hc | hmid
      · subst hc
        decide
      rcases List.mem_append.mp hmid with h | hmid
      · exact tok_noNul fmt hgood e s ch h
      rcases List.mem_cons.mp hmid with hc | hmid
      · subst hc
        decide
      rcases List.mem_cons.mp hmid with hc | hmid
      · subst hc
        decide
      rcases List.mem_append.mp hmid with h | hmid
      · exact tok_noNul fmt hgood w s ch h
      rcases List.mem_cons.mp hmid with hc | hmid
      · subst hc
        decide
      rcases List.mem_cons.mp hmid with hc | hmid
      · subst hc
        decide
      exact tok_noNul fmt hgood w n ch hmid
    · exact hE ch hend
  unfold Geometry.hasNul
  rw [List.any_eq_false]
  intro ch hch
  simpa using hmem ch hch

/-- Helper: on a string of the shape `POLYGON ((` ++ mid ++ `))`, the parser
accepts and splits `mid` at the commas. -/
theorem parsePolygonWkt_structure {α : Type} (readNum : String → α) (s : String)
    (mid : List Char)
    (hdata : s.data = "POLYGON ((".data ++ (mid ++ "))".data)) :
    parsePolygonWkt readNum s =
      parsePoints readNum (splitOnChar ',' mid) := by
  have hPlen : ("POLYGON ((" : String).data.length = 10 := rfl
  have hlen : ("POLYGON ((".data ++ (mid ++ "))".data)).length = 12 + mid.length := by
    simp only [List.length_append, List.length_cons, List.length_nil, hPlen]
    have hElen : ("))" : String).data.length = 2 := rfl
    omega
  have hA : ("POLYGON ((".data ++ (mid ++ "))".data)).take 10 = "POLYGON ((".data := by
    rw [← hPlen]
    exact List.take_left _ _
  have hB : ("POLYGON ((".data ++ (mid ++ "))".data)).drop
      (("POLYGON ((".data ++ (mid ++ "))".data)).length - 2) = "))".data := by
    rw [hlen, ← List.append_assoc]
    rw [show 12 + mid.length - 2 = ("POLYGON ((".data ++ mid).length by
      simp only [List.length_append, hPlen]
      omega]
    exact List.drop_left _ _
  have hC : 12 ≤ ("POLYGON ((".data ++ (mid ++ "))".data)).length := by
    rw [hlen]
    omega
  have harg : (("POLYGON ((".data ++ (mid ++ "))".data)).drop 10).take
      (("POLYGON ((".data ++ (mid ++ "))".data)).length - 12) = mid := by
    rw [hlen, ← hPlen, List.drop_left]
    rw [show 12 + mid.length - 12 = mid.length by omega]
    exact List.take_left _ _
  unfold parsePolygonWkt
  rw [hdata, if_pos ⟨hA, hB, hC⟩, harg]

/-- Helper: the native parse of the `bbox` WKT yields exactly the five corner
pairs, in order. -/
theorem parsePolygonWkt_bbox {α : Type} (fmt : α → String) (readNum : String → α)
    (hgood : ∀ a, goodToken (fmt a)) (hinv : ∀ a, readNum (fmt a) = a)
    (w s e n : α) :
    parsePolygonWkt readNum (bboxWkt fmt w s e n) =
      some [(w, n), (e, n), (e, s), (w, s), (w, n)] := by
  rw [parsePolygonWkt_structure readNum (bboxWkt fmt w s e n) _
    (bboxWkt_data fmt w s e n)]
  rw [splitOnChar_append ',' ((fmt w).data ++ ' ' :: (fmt n).data) _
    (tok_no_comma fmt hgood w n)]
  rw [splitOnChar_comma_blank _ _ (tok_no_comma fmt hgood e n)]
  rw [splitOnChar_comma_blank _ _ (tok_no_comma fmt hgood e s)]
  rw [splitOnChar_comma_blank _ _ (tok_no_comma fmt hgood w s)]
  rw [splitOnChar_comma_blank_last _ (tok_no_comma fmt hgood w n)]
  simp [parsePoints, parsePoint_cons_blank,
    parsePoint_token readNum (fmt w) (fmt n) (hgood w) (hgood n),
    parsePoint_token readNum (fmt e) (fmt n) (hgood e) (hgood n),
    parsePoint_token readNum (fmt e) (fmt s) (hgood e) (hgood s),
    parsePoint_token readNum (fmt w) (fmt s) (hgood w) (hgood s),
    hinv]

/-- C6: `bbox(w, s, e, n)` formats the five corner points into WKT and
delegates to `from_wkt`; under the spec's engine contract the parse succeeds,
the result is an owned bound geometry, and `get_point_vec` yields exactly the
five points (w,n), (e,n), (e,s), (w,s), (w,n) with z = 0, in that order, the
first corner repeated to close the ring. -/
theorem bbox_five_corners {α : Type} [Zero α] (fmt : α → String)
    (readNum : String → α) (hNew : Nat)
    (hgood : ∀ a, goodToken (fmt a)) (hinv : ∀ a, readNum (fmt a) = a)
    (w s e n : α) :
    (Geometry.bbox (wktEngine readNum hNew) fmt w s e n =
        Geometry.from_wkt (wktEngine readNum hNew) (bboxWkt fmt w s e n)) ∧
      Geometry.bbox (wktEngine readNum hNew) fmt w s e n =
        some (Geometry.with_c_geometry hNew true) ∧
      ∃ pts, parsePolygonWkt readNum (bboxWkt fmt w s e n) = some pts ∧
        Geometry.get_point_vec pts =
          [(w, n, 0), (e, n, 0), (e, s, 0), (w, s, 0), (w, n, 0)] := by
  have hparse := parsePolygonWkt_bbox fmt readNum hgood hinv w s e n
  refine ⟨rfl, ?_, ?_⟩
  · simp [Geometry.bbox, Geometry.from_wkt, wktEngine, hparse,
      bboxWkt_noNul fmt hgood w s e n, OGRERR_NONE, Geometry.with_c_geometry]
  · refine ⟨[(w, n), (e, n), (e, s), (w, s), (w, n)], hparse, ?_⟩
    rfl

/-- Witness for C6 on `Fin 5` coordinates with the unary formatter. -/
theorem bbox_five_corners_witness :
    (Geometry.bbox (wktEngine unaryRead 5) unaryFmt 0 1 2 3 =
        Geometry.from_wkt (wktEngine unaryRead 5) (bboxWkt unaryFmt 0 1 2 3)) ∧
      Geometry.bbox (wktEngine unaryRead 5) unaryFmt 0 1 2 3 =
        some (Geometry.with_c_geometry 5 true) ∧
      ∃ pts, parsePolygonWkt unaryRead (bboxWkt unaryFmt 0 1 2 3) = some pts ∧
        Geometry.get_point_vec pts =
          [((0 : Fin 5), (3 : Fin 5), (0 : Fin 5)), (2, 3, 0), (2, 1, 0),
            (0, 1, 0), (0, 3, 0)] :=
  bbox_five_corners unaryFmt unaryRead 5 (by decide) (by decide) 0 1 2 3

end Gdal
